import Mathlib

/-!
Verification of the SOL autotrade bot (`src/main.py`) against its
natural-language specification.

Modelling conventions:
* Python floats are modelled as exact rationals (`ℚ`); the spec's numeric
  contracts are stated "within float tolerance", which the exact model makes
  precise.
* Python's `round(x, 6)` (banker's rounding to six fractional digits) is
  modelled exactly by `pyround6` below, using round-half-to-even.
* The single body of the polling loop in `main` is modelled as the pure
  function `tick`; network and database effects are represented by boolean
  success flags in `TickInput` and by the lists of emitted orders, store
  writes, Telegram notifications and error logs in `TickResult`.
-/

namespace SolBot

/-- Round-half-to-even on rationals: the integer nearest to `q`, ties going to
the even integer.  This is Python's `round` tie-breaking rule. -/
def roundHalfEven (q : ℚ) : ℤ :=
  if q - ⌊q⌋ < 1/2 then ⌊q⌋
  else if 1/2 < q - ⌊q⌋ then ⌊q⌋ + 1
  else if 2 ∣ ⌊q⌋ then ⌊q⌋ else ⌊q⌋ + 1

/-- Python's `round(x, 6)`: round to six fractional digits, half to even. -/
def pyround6 (q : ℚ) : ℚ :=
  (roundHalfEven (q * 10^6) : ℚ) / 10^6

/-- `quantize_qty` from `src/main.py`:
```
if qty <= 0: return 0.0
steps = math.floor(qty / QTY_STEP)
return round(steps * QTY_STEP, 6)
```
The global `QTY_STEP` is passed explicitly as `step`. -/
def quantize_qty (step : ℚ) (qty : ℚ) : ℚ :=
  if qty ≤ 0 then 0
  else pyround6 ((⌊qty / step⌋ : ℚ) * step)

theorem roundHalfEven_intCast (z : ℤ) : roundHalfEven (z : ℚ) = z := by
  unfold roundHalfEven
  rw [Int.floor_intCast]
  simp

/-- If `q` is an integer multiple of `10⁻⁶` then rounding to six digits is the
identity. -/
theorem pyround6_eq_self (q : ℚ) (z : ℤ) (h : q * 10^6 = z) : pyround6 q = q := by
  unfold pyround6
  rw [h, roundHalfEven_intCast, ← h]
  field_simp

theorem quantize_qty_nonpos (step : ℚ) (qty : ℚ) (h : qty ≤ 0) :
    quantize_qty step qty = 0 := by
  unfold quantize_qty
  rw [if_pos h]

theorem quantize_qty_zero (step : ℚ) : quantize_qty step 0 = 0 :=
  quantize_qty_nonpos step 0 le_rfl

/-- When the step is an integer multiple of `10⁻⁶`, `quantize_qty` is exactly
`⌊qty/step⌋ * step` on positive inputs (the six-digit rounding is the
identity there). -/
theorem quantize_qty_pos_eq (step qty : ℚ) (m : ℤ) (hm : step * 10^6 = m)
    (hq : 0 < qty) :
    quantize_qty step qty = (⌊qty / step⌋ : ℚ) * step := by
  unfold quantize_qty
  rw [if_neg (not_le.mpr hq)]
  exact pyround6_eq_self _ (⌊qty / step⌋ * m) (by push_cast [← hm]; ring)

/-- On a nonpositive input the quantizer returns `0`, hence re-quantizing a
quantized value that came out `≤ 0` yields `0` again. -/
theorem quantize_qty_of_nonpos_le (step qty : ℚ) (h : quantize_qty step qty ≤ 0) :
    quantize_qty step (quantize_qty step qty) = 0 :=
  quantize_qty_nonpos step _ h

/-- The full quantizer contract, for a step size that is a positive integer
multiple of `10⁻⁶` (shared helper). -/
theorem quantize_qty_props (step qty : ℚ) (hstep : 0 < step)
    (hm : ∃ m : ℤ, step * 10^6 = m) :
    (qty ≤ 0 → quantize_qty step qty = 0) ∧
    (0 < qty → quantize_qty step qty = (⌊qty / step⌋ : ℚ) * step) ∧
    0 ≤ quantize_qty step qty ∧
    (∃ k : ℤ, 0 ≤ k ∧ quantize_qty step qty = (k : ℚ) * step) ∧
    (0 ≤ qty → quantize_qty step qty ≤ qty) ∧
    (qty < step → quantize_qty step qty = 0) := by
  obtain ⟨m, hmeq⟩ := hm
  by_cases h0 : qty ≤ 0
  · rw [quantize_qty_nonpos step qty h0]
    refine ⟨fun _ => rfl, fun hc => absurd hc (not_lt.mpr h0), le_rfl,
      ⟨0, le_rfl, by simp⟩, fun hq => hq, fun _ => rfl⟩
  · push_neg at h0
    have heq := quantize_qty_pos_eq step qty m hmeq h0
    have hdiv : 0 ≤ qty / step := le_of_lt (div_pos h0 hstep)
    have hfl : (0 : ℤ) ≤ ⌊qty / step⌋ := Int.floor_nonneg.mpr hdiv
    refine ⟨fun hc => absurd h0 (not_lt.mpr hc), fun _ => heq, ?_, ?_, ?_, ?_⟩
    · rw [heq]
      exact mul_nonneg (by exact_mod_cast hfl) hstep.le
    · exact ⟨⌊qty / step⌋, hfl, heq⟩
    · intro _
      rw [heq]
      calc (⌊qty / step⌋ : ℚ) * step ≤ (qty / step) * step :=
            mul_le_mul_of_nonneg_right (Int.floor_le _) hstep.le
        _ = qty := div_mul_cancel₀ qty hstep.ne'
    · intro hlt
      have h1 : qty / step < 1 := (div_lt_one hstep).mpr hlt
      have : ⌊qty / step⌋ = 0 := Int.floor_eq_zero_iff.mpr ⟨hdiv, h1⟩
      rw [heq, this]
      simp

/-- C3 (amended): for a step size `S > 0` that is an integer multiple of
`10⁻⁶` (so that rounding to six fractional digits is exact on multiples of
`S`), `quantize_qty` returns exactly `⌊qty/S⌋·S` on positive inputs, and the
full contract holds: the output is a non-negative integer multiple of `S`, it
is at most the input whenever the input is non-negative, and it is `0`
whenever `qty ≤ 0` and whenever `qty < S`. -/
theorem quantize_qty_correct (step qty : ℚ) (hstep : 0 < step)
    (hm : ∃ m : ℤ, step * 10^6 = m) :
    (qty ≤ 0 → quantize_qty step qty = 0) ∧
    (0 < qty → quantize_qty step qty = (⌊qty / step⌋ : ℚ) * step) ∧
    0 ≤ quantize_qty step qty ∧
    (∃ k : ℤ, 0 ≤ k ∧ quantize_qty step qty = (k : ℚ) * step) ∧
    (0 ≤ qty → quantize_qty step qty ≤ qty) ∧
    (qty < step → quantize_qty step qty = 0) :=
  quantize_qty_props step qty hstep hm

/-- C3 counterexample: with step `S = 19·10⁻⁷` (positive, but not a multiple
of `10⁻⁶`) and `qty = S`, the code returns `round(1·S, 6) = 2·10⁻⁶`, which
exceeds the input and is not a multiple of `S`: the claim's contract fails as
universally stated. -/
theorem quantize_qty_claim_counterexample :
    0 < (19/10^7 : ℚ) ∧
    quantize_qty (19/10^7) (19/10^7) = 2/10^6 ∧
    ¬ quantize_qty (19/10^7) (19/10^7) ≤ 19/10^7 := by
  norm_num [quantize_qty, pyround6, roundHalfEven]

/-- Witness for `quantize_qty_correct` at the repository's default step
`QTY_STEP = 0.001` and `qty = 0.0025`. -/
theorem quantize_qty_correct_witness :
    quantize_qty (1/1000) (1/400) ≤ 1/400 ∧ 0 ≤ quantize_qty (1/1000) (1/400) := by
  have h := quantize_qty_correct (1/1000) (1/400) (by norm_num) ⟨1000, by norm_num⟩
  exact ⟨h.2.2.2.2.1 (by norm_num), h.2.2.1⟩

/-! ## The decision engine: one iteration of the polling loop in `main` -/

/-- Strategy parameters (`DIP_PERCENT`, `TP_PERCENT`, `ORDER_USDT`,
`MIN_POSITION_USDT`, `QTY_STEP` in `src/main.py`), read once at startup. -/
structure Config where
  DIP_PERCENT : ℚ
  TP_PERCENT : ℚ
  ORDER_USDT : ℚ
  MIN_POSITION_USDT : ℚ
  QTY_STEP : ℚ
deriving DecidableEq

/-- The environment-variable defaults of `src/main.py`. -/
def defaultConfig : Config :=
  { DIP_PERCENT := 5, TP_PERCENT := 4, ORDER_USDT := 25,
    MIN_POSITION_USDT := 5, QTY_STEP := 1/1000 }

/-- Outcome of `place_market_order`:
* `notSent` — `qty_adj <= 0`, a `RuntimeError` is raised before any request
  reaches the exchange;
* `rejected` — the order was submitted but the exchange answered with a
  non-zero `retCode`, raising `RuntimeError` after submission;
* `filled` — the order was submitted and accepted. -/
inductive OrderOutcome
  | notSent
  | rejected (qtyAdj : ℚ)
  | filled (qtyAdj : ℚ)
deriving DecidableEq

/-- `place_market_order` from `src/main.py`: re-quantizes its argument and
raises (`notSent`) when the adjusted quantity is `≤ 0`; otherwise submits the
adjusted quantity, the exchange's answer being modelled by `orderOk`. -/
def place_market_order (step : ℚ) (orderOk : Bool) (qty : ℚ) : OrderOutcome :=
  if quantize_qty step qty ≤ 0 then .notSent
  else if orderOk then .filled (quantize_qty step qty)
  else .rejected (quantize_qty step qty)

/-- Order side, the `side="Buy"` / `side="Sell"` argument of
`place_market_order`. -/
inductive Side
  | buy
  | sell
deriving DecidableEq

/-- Which branch of the nested conditionals in `main` the tick took
(the spec's trade-decision taxonomy, derived from the code's branch
structure). -/
inductive Decision
  | uninit
  | wait
  | takeProfitSell (qty : ℚ)
  | dipBuy (qty : ℚ)
  | dipBuyRejected
deriving DecidableEq

/-- Telegram notifications sent by one tick (payload reduced to the numeric
fields interpolated into the message text). -/
inductive Msg
  | initBase (price : ℚ)
  | takeProfit (qty price oldBase : ℚ)
  | dipBuy (qty price oldBase newBase : ℚ)
  | insufficientFunds (avail needed : ℚ)
deriving DecidableEq

/-- Error-log (stderr) lines a tick can produce. -/
inductive ErrTag
  | dbReadErr
  | dbWriteErr
  | sellOrderErr
  | buyOrderErr
deriving DecidableEq

/-- Inputs of one loop iteration.  `price`, `sol_total`, `usdt_available` are
the gateway answers (a gateway failure aborts the tick before any of the code
modelled here runs, per lines 220–226); `stored` is the DB row for the pair;
the three flags say whether `get_base_price`, `set_base_price` and
`session.place_order` succeed when called. -/
structure TickInput where
  price : ℚ
  sol_total : ℚ
  usdt_available : ℚ
  stored : Option ℚ
  storeReadOk : Bool
  storeWriteOk : Bool
  orderOk : Bool
deriving DecidableEq

/-- Observable effects of one loop iteration. `exchangeOrders` lists the
orders that actually reached `session.place_order` (side, adjusted
quantity); `store` is the DB content after the tick. -/
structure TickResult where
  decision : Decision
  exchangeOrders : List (Side × ℚ)
  store : Option ℚ
  telegrams : List Msg
  errors : List ErrTag
deriving DecidableEq

/-- One iteration of the `while True` loop of `main` (`src/main.py`
lines 219–337), translated branch by branch:

* lines 228–229: `position_value`, `has_position`;
* lines 232–236: `get_base_price`, a DB error is logged and leaves
  `base_price = None`;
* lines 238–249: no base price → write current price as base, notify, and
  skip the rest of the tick;
* lines 262–291: in position → take-profit check, sell all, re-base on
  success;
* lines 296–334: flat → dip check, funds check, buy fixed notional,
  re-base on success. -/
def tick (cfg : Config) (inp : TickInput) : TickResult :=
  let base_price : Option ℚ := if inp.storeReadOk then inp.stored else none
  let readErrs : List ErrTag := if inp.storeReadOk then [] else [.dbReadErr]
  match base_price with
  | none =>
      { decision := .uninit
        exchangeOrders := []
        store := if inp.storeWriteOk then some inp.price else inp.stored
        telegrams := [.initBase inp.price]
        errors := readErrs ++ (if inp.storeWriteOk then [] else [.dbWriteErr]) }
  | some base =>
      if cfg.MIN_POSITION_USDT ≤ inp.sol_total * inp.price then
        -- 1) in position → take-profit logic
        if base * (1 + cfg.TP_PERCENT / 100) ≤ inp.price then
          match place_market_order cfg.QTY_STEP inp.orderOk inp.sol_total with
          | .notSent =>
              { decision := .takeProfitSell inp.sol_total, exchangeOrders := [],
                store := inp.stored, telegrams := [], errors := [.sellOrderErr] }
          | .rejected qa =>
              { decision := .takeProfitSell inp.sol_total,
                exchangeOrders := [(Side.sell, qa)],
                store := inp.stored, telegrams := [], errors := [.sellOrderErr] }
          | .filled qa =>
              { decision := .takeProfitSell inp.sol_total,
                exchangeOrders := [(Side.sell, qa)],
                store := if inp.storeWriteOk then some inp.price else inp.stored,
                telegrams := [.takeProfit inp.sol_total inp.price base],
                errors := if inp.storeWriteOk then [] else [.dbWriteErr] }
        else
          { decision := .wait, exchangeOrders := [], store := inp.stored,
            telegrams := [], errors := [] }
      else
        -- 2) flat → dip-buy logic
        if inp.price ≤ base * (1 - cfg.DIP_PERCENT / 100) then
          if inp.usdt_available < cfg.ORDER_USDT then
            { decision := .dipBuyRejected, exchangeOrders := [],
              store := inp.stored,
              telegrams := [.insufficientFunds inp.usdt_available cfg.ORDER_USDT],
              errors := [] }
          else
            let qty := quantize_qty cfg.QTY_STEP (cfg.ORDER_USDT / inp.price)
            match place_market_order cfg.QTY_STEP inp.orderOk qty with
            | .notSent =>
                { decision := .dipBuy qty, exchangeOrders := [],
                  store := inp.stored, telegrams := [], errors := [.buyOrderErr] }
            | .rejected qa =>
                { decision := .dipBuy qty, exchangeOrders := [(Side.buy, qa)],
                  store := inp.stored, telegrams := [], errors := [.buyOrderErr] }
            | .filled qa =>
                { decision := .dipBuy qty, exchangeOrders := [(Side.buy, qa)],
                  store := if inp.storeWriteOk then some inp.price else inp.stored,
                  telegrams := [.dipBuy qa inp.price base inp.price],
                  errors := if inp.storeWriteOk then [] else [.dbWriteErr] }
        else
          { decision := .wait, exchangeOrders := [], store := inp.stored,
            telegrams := [], errors := [] }

/-! ## Claims about the decision engine -/

/-- C1: when the store read fails (`get_base_price` raises) while a live
reference (`200`) is stored, the code does NOT abort the tick: it falls back
to `base_price = None`, takes the "uninitialized" branch, overwrites the
stored reference with the observed price (`100`) and notifies — contradicting
the claim that a read failure aborts the tick with no write. -/
theorem store_read_failure_recalibrates :
    tick defaultConfig
      { price := 100, sol_total := 0, usdt_available := 0, stored := some 200,
        storeReadOk := false, storeWriteOk := true, orderOk := true } =
      { decision := .uninit, exchangeOrders := [], store := some 100,
        telegrams := [.initBase 100], errors := [.dbReadErr] } := by
  norm_num [tick]

/-- C2: on any tick whose order call succeeded (`orderOk`) and whose store
write succeeded, if an order reached the exchange then the stored reference
afterwards is exactly the price observed on that tick; and a tick never
deletes an existing reference. -/
theorem reference_rebased_after_trade (cfg : Config) (inp : TickInput)
    (hw : inp.storeWriteOk = true) (ho : inp.orderOk = true) :
    ((tick cfg inp).exchangeOrders ≠ [] → (tick cfg inp).store = some inp.price) ∧
    (inp.stored ≠ none → (tick cfg inp).store ≠ none) := by
  obtain ⟨p, st, ua, sd, rok, wok, ook⟩ := inp
  dsimp only at hw ho ⊢
  subst hw ho
  unfold tick place_market_order
  cases rok <;> rcases sd with _ | b <;> simp
  all_goals split_ifs <;> simp_all

/-- Witness for `reference_rebased_after_trade`: a take-profit tick at price
`104` over base `100` with one SOL sells and re-bases the store to `104`. -/
theorem reference_rebased_after_trade_witness :
    (tick defaultConfig
      { price := 104, sol_total := 1, usdt_available := 0, stored := some 100,
        storeReadOk := true, storeWriteOk := true, orderOk := true }).store =
      some 104 := by
  refine (reference_rebased_after_trade defaultConfig _ rfl rfl).1 ?_
  norm_num [tick, defaultConfig, place_market_order, quantize_qty, pyround6,
    roundHalfEven]

/-- C4: on a tick with no stored reference (and a working store), the engine
places no order, emits the uninitialized decision, and after the tick the
store holds exactly the observed price. -/
theorem first_tick_calibrates (cfg : Config) (inp : TickInput)
    (hr : inp.storeReadOk = true) (hs : inp.stored = none)
    (hw : inp.storeWriteOk = true) :
    (tick cfg inp).exchangeOrders = [] ∧
    (tick cfg inp).store = some inp.price ∧
    (tick cfg inp).decision = .uninit ∧
    (tick cfg inp).errors = [] := by
  simp [tick, hr, hs, hw]

/-- Witness for `first_tick_calibrates` at price `123.45`. -/
theorem first_tick_calibrates_witness :
    (tick defaultConfig
      { price := 2469/20, sol_total := 0, usdt_available := 50, stored := none,
        storeReadOk := true, storeWriteOk := true, orderOk := true }).exchangeOrders
        = [] ∧
    (tick defaultConfig
      { price := 2469/20, sol_total := 0, usdt_available := 50, stored := none,
        storeReadOk := true, storeWriteOk := true, orderOk := true }).store =
      some (2469/20) :=
  ⟨(first_tick_calibrates defaultConfig _ rfl rfl rfl).1,
   (first_tick_calibrates defaultConfig _ rfl rfl rfl).2.1⟩

/-- C5: while in position (`MIN_POSITION_USDT ≤ sol_total * price`) and the
price strictly below the take-profit level, the tick waits: no order, store
unchanged, no notification — regardless of whether the price would satisfy
the dip condition (no hypothesis about the dip level is needed). -/
theorem in_position_below_tp_waits (cfg : Config) (inp : TickInput) (b : ℚ)
    (hr : inp.storeReadOk = true) (hs : inp.stored = some b)
    (hpos : cfg.MIN_POSITION_USDT ≤ inp.sol_total * inp.price)
    (hlt : inp.price < b * (1 + cfg.TP_PERCENT / 100)) :
    (tick cfg inp).decision = .wait ∧
    (tick cfg inp).exchangeOrders = [] ∧
    (tick cfg inp).store = inp.stored ∧
    (tick cfg inp).telegrams = [] := by
  simp [tick, hr, hs, hpos, not_le.mpr hlt]

/-- Witness for `in_position_below_tp_waits`: base `100`, price `90` (which
even satisfies the dip threshold `95`), one SOL held — the tick still waits
and evaluates no buy. -/
theorem in_position_below_tp_waits_witness :
    (tick defaultConfig
      { price := 90, sol_total := 1, usdt_available := 1000, stored := some 100,
        storeReadOk := true, storeWriteOk := true, orderOk := true }).decision =
      .wait ∧
    (tick defaultConfig
      { price := 90, sol_total := 1, usdt_available := 1000, stored := some 100,
        storeReadOk := true, storeWriteOk := true, orderOk := true }).exchangeOrders
      = [] ∧
    (90 : ℚ) ≤ 100 * (1 - (5:ℚ) / 100) := by
  have h := in_position_below_tp_waits defaultConfig
    { price := 90, sol_total := 1, usdt_available := 1000, stored := some 100,
      storeReadOk := true, storeWriteOk := true, orderOk := true } 100
    rfl rfl (by norm_num [defaultConfig]) (by norm_num [defaultConfig])
  exact ⟨h.1, h.2.1, by norm_num⟩

/-- C6: on a flat tick where the dip threshold is met but the available USDT
is below `ORDER_USDT`, the tick emits only the insufficient-funds
notification: no order call, store unchanged, no errors. -/
theorem dip_insufficient_funds_rejected (cfg : Config) (inp : TickInput) (b : ℚ)
    (hr : inp.storeReadOk = true) (hs : inp.stored = some b)
    (hflat : inp.sol_total * inp.price < cfg.MIN_POSITION_USDT)
    (hdip : inp.price ≤ b * (1 - cfg.DIP_PERCENT / 100))
    (hfunds : inp.usdt_available < cfg.ORDER_USDT) :
    (tick cfg inp).decision = .dipBuyRejected ∧
    (tick cfg inp).exchangeOrders = [] ∧
    (tick cfg inp).store = inp.stored ∧
    (tick cfg inp).telegrams =
      [.insufficientFunds inp.usdt_available cfg.ORDER_USDT] ∧
    (tick cfg inp).errors = [] := by
  simp [tick, hr, hs, not_le.mpr hflat, hdip, hfunds]

/-- Witness for `dip_insufficient_funds_rejected`: flat, base `100`, price
`94`, only `10` USDT available against an order size of `25`. -/
theorem dip_insufficient_funds_rejected_witness :
    (tick defaultConfig
      { price := 94, sol_total := 0, usdt_available := 10, stored := some 100,
        storeReadOk := true, storeWriteOk := true, orderOk := true }).decision =
      .dipBuyRejected ∧
    (tick defaultConfig
      { price := 94, sol_total := 0, usdt_available := 10, stored := some 100,
        storeReadOk := true, storeWriteOk := true, orderOk := true }).exchangeOrders
      = [] := by
  have h := dip_insufficient_funds_rejected defaultConfig
    { price := 94, sol_total := 0, usdt_available := 10, stored := some 100,
      storeReadOk := true, storeWriteOk := true, orderOk := true } 100
    rfl rfl (by norm_num [defaultConfig]) (by norm_num [defaultConfig])
    (by norm_num [defaultConfig])
  exact ⟨h.1, h.2.1⟩

/-- C7 counterexample: a take-profit tick whose sell order the gateway
rejects.  The reference is indeed left unchanged and no success notification
is sent, but the Telegram notifier receives NOTHING (`telegrams = []`): the
failure is only written to the stderr log, so "the notifier is informed of
the failure" is false. -/
theorem order_failure_no_notification :
    tick defaultConfig
      { price := 104, sol_total := 1, usdt_available := 0, stored := some 100,
        storeReadOk := true, storeWriteOk := true, orderOk := false } =
      { decision := .takeProfitSell 1, exchangeOrders := [(Side.sell, 1)],
        store := some 100, telegrams := [], errors := [.sellOrderErr] } := by
  norm_num [tick, defaultConfig, place_market_order, quantize_qty, pyround6,
    roundHalfEven]

/-- C7 (amended): if the execution gateway rejects or errors on an attempted
order (buy or sell), the decision is dropped atomically — the stored
reference is not updated and no (success) notification is sent; the failure
is recorded only in the error log, the notifier is not informed. -/
theorem order_failure_drops_decision (cfg : Config) (inp : TickInput) (q : ℚ)
    (ho : inp.orderOk = false)
    (hd : (tick cfg inp).decision = .takeProfitSell q ∨
          (tick cfg inp).decision = .dipBuy q) :
    (tick cfg inp).store = inp.stored ∧
    (tick cfg inp).telegrams = [] ∧
    (tick cfg inp).errors ≠ [] := by
  obtain ⟨p, st, ua, sd, rok, wok, ook⟩ := inp
  dsimp only at ho hd ⊢
  subst ho
  revert hd
  unfold tick place_market_order
  cases rok <;> rcases sd with _ | b <;> simp
  all_goals split_ifs <;> simp_all

/-- Witness for `order_failure_drops_decision` on the rejected-sell tick. -/
theorem order_failure_drops_decision_witness :
    (tick defaultConfig
      { price := 104, sol_total := 1, usdt_available := 0, stored := some 100,
        storeReadOk := true, storeWriteOk := true, orderOk := false }).store =
      some 100 ∧
    (tick defaultConfig
      { price := 104, sol_total := 1, usdt_available := 0, stored := some 100,
        storeReadOk := true, storeWriteOk := true, orderOk := false }).telegrams
      = [] := by
  have h := order_failure_drops_decision defaultConfig
    { price := 104, sol_total := 1, usdt_available := 0, stored := some 100,
      storeReadOk := true, storeWriteOk := true, orderOk := false } 1
    rfl (Or.inl (by norm_num [tick, defaultConfig, place_market_order,
      quantize_qty, pyround6, roundHalfEven]))
  exact ⟨h.1, h.2.1⟩

/-- C8: on a flat dip tick with sufficient funds but a quantized quantity
`≤ 0`, no order reaches the exchange (the `RuntimeError` in
`place_market_order` fires before submission), the reference is unchanged,
and the tick ends as an order-error no-op. -/
theorem zero_quantized_qty_no_order (cfg : Config) (inp : TickInput) (b : ℚ)
    (hr : inp.storeReadOk = true) (hs : inp.stored = some b)
    (hflat : inp.sol_total * inp.price < cfg.MIN_POSITION_USDT)
    (hdip : inp.price ≤ b * (1 - cfg.DIP_PERCENT / 100))
    (hfunds : ¬ inp.usdt_available < cfg.ORDER_USDT)
    (hq : quantize_qty cfg.QTY_STEP (cfg.ORDER_USDT / inp.price) ≤ 0) :
    (tick cfg inp).exchangeOrders = [] ∧
    (tick cfg inp).store = inp.stored ∧
    (tick cfg inp).telegrams = [] ∧
    (tick cfg inp).errors = [.buyOrderErr] := by
  have h2 : quantize_qty cfg.QTY_STEP
      (quantize_qty cfg.QTY_STEP (cfg.ORDER_USDT / inp.price)) ≤ 0 :=
    le_of_eq (quantize_qty_of_nonpos_le _ _ hq)
  simp [tick, place_market_order, hr, hs, not_le.mpr hflat, hdip, hfunds, h2]

/-- Witness for `zero_quantized_qty_no_order`: at price `100000` the desired
quantity `25/100000` is below the step `0.001`, so it quantizes to `0`. -/
theorem zero_quantized_qty_no_order_witness :
    (tick defaultConfig
      { price := 100000, sol_total := 0, usdt_available := 100,
        stored := some 200000, storeReadOk := true, storeWriteOk := true,
        orderOk := true }).exchangeOrders = [] ∧
    (tick defaultConfig
      { price := 100000, sol_total := 0, usdt_available := 100,
        stored := some 200000, storeReadOk := true, storeWriteOk := true,
        orderOk := true }).store = some 200000 := by
  have h := zero_quantized_qty_no_order defaultConfig
    { price := 100000, sol_total := 0, usdt_available := 100,
      stored := some 200000, storeReadOk := true, storeWriteOk := true,
      orderOk := true } 200000
    rfl rfl (by norm_num [defaultConfig]) (by norm_num [defaultConfig])
    (by norm_num [defaultConfig])
    (by norm_num [defaultConfig, quantize_qty, pyround6, roundHalfEven])
  exact ⟨h.1, h.2.1⟩

/-- Every tick sends either no order, one sell of the quantized total
holdings, or one buy of the (re-)quantized notional quantity; in the latter
two cases the quantized quantity passed the positivity gate of
`place_market_order`. -/
theorem tick_orders_cases (cfg : Config) (inp : TickInput) :
    (tick cfg inp).exchangeOrders = [] ∨
    ((tick cfg inp).exchangeOrders =
        [(Side.sell, quantize_qty cfg.QTY_STEP inp.sol_total)] ∧
      ¬ quantize_qty cfg.QTY_STEP inp.sol_total ≤ 0) ∨
    ((tick cfg inp).exchangeOrders =
        [(Side.buy, quantize_qty cfg.QTY_STEP
            (quantize_qty cfg.QTY_STEP (cfg.ORDER_USDT / inp.price)))] ∧
      ¬ quantize_qty cfg.QTY_STEP
          (quantize_qty cfg.QTY_STEP (cfg.ORDER_USDT / inp.price)) ≤ 0) := by
  obtain ⟨p, st, ua, sd, rok, wok, ook⟩ := inp
  unfold tick place_market_order
  cases rok <;> rcases sd with _ | b <;> simp
  all_goals split_ifs <;> simp_all

/-- C10: under the repository's step-size conventions (`QTY_STEP > 0`, an
integer multiple of `10⁻⁶`) and non-negative holdings, every order that
reaches the exchange carries a strictly positive integer multiple of
`QTY_STEP`; every sell order carries exactly `quantize_qty sol_total`, which
is at most the holdings (so sub-step dust can remain); and
`place_market_order` refuses to submit whenever its re-quantized argument is
`≤ 0`. -/
theorem exchange_orders_quantized (cfg : Config) (inp : TickInput)
    (hstep : 0 < cfg.QTY_STEP) (hm : ∃ m : ℤ, cfg.QTY_STEP * 10^6 = m)
    (h0 : 0 ≤ inp.sol_total) :
    (∀ s q, (s, q) ∈ (tick cfg inp).exchangeOrders →
        0 < q ∧ ∃ k : ℤ, q = (k : ℚ) * cfg.QTY_STEP) ∧
    (∀ q, (Side.sell, q) ∈ (tick cfg inp).exchangeOrders →
        q = quantize_qty cfg.QTY_STEP inp.sol_total ∧ q ≤ inp.sol_total) ∧
    (∀ ok qty, quantize_qty cfg.QTY_STEP qty ≤ 0 →
        place_market_order cfg.QTY_STEP ok qty = .notSent) := by
  refine ⟨?_, ?_, ?_⟩
  · intro s q hmem
    rcases tick_orders_cases cfg inp with h | ⟨h, hpos⟩ | ⟨h, hpos⟩
    · rw [h] at hmem
      simp at hmem
    · rw [h] at hmem
      simp at hmem
      obtain ⟨k, _, hk⟩ := (quantize_qty_props cfg.QTY_STEP inp.sol_total
        hstep hm).2.2.2.1
      exact ⟨hmem.2 ▸ not_le.mp hpos, k, hmem.2.trans hk⟩
    · rw [h] at hmem
      simp at hmem
      obtain ⟨k, _, hk⟩ := (quantize_qty_props cfg.QTY_STEP
        (quantize_qty cfg.QTY_STEP (cfg.ORDER_USDT / inp.price))
        hstep hm).2.2.2.1
      exact ⟨hmem.2 ▸ not_le.mp hpos, k, hmem.2.trans hk⟩
  · intro q hmem
    rcases tick_orders_cases cfg inp with h | ⟨h, hpos⟩ | ⟨h, hpos⟩
    · rw [h] at hmem
      simp at hmem
    · rw [h] at hmem
      simp at hmem
      exact ⟨hmem, hmem ▸
        (quantize_qty_props cfg.QTY_STEP inp.sol_total hstep hm).2.2.2.2.1 h0⟩
    · rw [h] at hmem
      simp at hmem
  · intro ok qty h
    unfold place_market_order
    rw [if_pos h]

/-- Witness for `exchange_orders_quantized`: the take-profit sell of one SOL
at the default step submits exactly `quantize_qty 1 = 1 ≤ 1`. -/
theorem exchange_orders_quantized_witness :
    (1 : ℚ) = quantize_qty defaultConfig.QTY_STEP 1 ∧ (1 : ℚ) ≤ 1 := by
  have h := exchange_orders_quantized defaultConfig
    { price := 104, sol_total := 1, usdt_available := 0, stored := some 100,
      storeReadOk := true, storeWriteOk := true, orderOk := true }
    (by norm_num [defaultConfig]) ⟨1000, by norm_num [defaultConfig]⟩
    (by norm_num)
  exact h.2.1 1 (by norm_num [tick, defaultConfig, place_market_order,
    quantize_qty, pyround6, roundHalfEven])

/-! ## The balance reader `get_balances` and `safe_float` -/

/-- A JSON field value as Bybit delivers it to `safe_float`: Python `None`
(also used for an absent key, since `coin.get(k)` returns `None`), a number,
or a string.  For a string we record what `float(s.strip())` would produce:
`none` when the stripped string is empty or unparsable (both of which
`safe_float` turns into `0.0`). -/
inductive PyVal
  | pynone
  | num (q : ℚ)
  | str (parsed : Option ℚ)
deriving DecidableEq

/-- `safe_float` from `src/main.py`: `None` ↦ `0.0`, numbers pass through,
strings are stripped and parsed, empty or unparsable strings ↦ `0.0`. -/
def safe_float : PyVal → ℚ
  | .pynone => 0
  | .num q => q
  | .str (some q) => q
  | .str none => 0

/-- One element of an account's `coin` list in the wallet-balance response. -/
structure CoinEntry where
  coin : String
  walletBalance : PyVal
  availableToWithdraw : PyVal
deriving DecidableEq

/-- The body of the inner `for coin in acct.get("coin", [])` loop of
`get_balances`: `sol_total` is assigned the `walletBalance` of a SOL entry,
`usdt_available` the `availableToWithdraw` of a USDT entry; other coins are
ignored. -/
def balStep (st : ℚ × ℚ) (c : CoinEntry) : ℚ × ℚ :=
  if c.coin = "SOL" then (safe_float c.walletBalance, st.2)
  else if c.coin = "USDT" then (st.1, safe_float c.availableToWithdraw)
  else st

/-- `get_balances` from `src/main.py`: both accumulators start at `0.0` and
the nested loops run over every account and every coin entry.  Returns
`(sol_total, usdt_available)`. -/
def get_balances (accounts : List (List CoinEntry)) : ℚ × ℚ :=
  accounts.foldl (fun st acct => acct.foldl balStep st) (0, 0)

theorem foldl_balStep_fst (l : List CoinEntry) (st : ℚ × ℚ) :
    (l.foldl balStep st).1 =
      ((l.filter fun c => decide (c.coin = "SOL")).getLast?).elim st.1
        (fun c => safe_float c.walletBalance) := by
  induction l using List.reverseRecOn with
  | nil => simp
  | append_singleton l c ih =>
      rw [List.foldl_append, List.filter_append]
      by_cases h : c.coin = "SOL"
      · simp [balStep, h, List.getLast?_concat]
      · by_cases h2 : c.coin = "USDT" <;> simp [balStep, h, h2, ih]

theorem foldl_balStep_snd (l : List CoinEntry) (st : ℚ × ℚ) :
    (l.foldl balStep st).2 =
      ((l.filter fun c => decide (c.coin = "USDT")).getLast?).elim st.2
        (fun c => safe_float c.availableToWithdraw) := by
  induction l using List.reverseRecOn with
  | nil => simp
  | append_singleton l c ih =>
      rw [List.foldl_append, List.filter_append]
      by_cases h : c.coin = "SOL"
      · simp [balStep, h, ih]
      · by_cases h2 : c.coin = "USDT"
        · simp [balStep, h, h2, List.getLast?_concat]
        · simp [balStep, h, h2, ih]

/-- C9: `get_balances` returns an asymmetric pair — the first component is
the `walletBalance` (total holdings) of the LAST SOL entry across all
accounts, the second the `availableToWithdraw` of the LAST USDT entry
(assignment overwrites, never sums); an absent coin yields `0`, and
`safe_float` maps `None`/absent and empty-or-unparsable string fields
to `0`. -/
theorem get_balances_last_entry (accounts : List (List CoinEntry)) :
    get_balances accounts =
      (((accounts.flatten.filter fun c => decide (c.coin = "SOL")).getLast?).elim
          0 (fun c => safe_float c.walletBalance),
       ((accounts.flatten.filter fun c => decide (c.coin = "USDT")).getLast?).elim
          0 (fun c => safe_float c.availableToWithdraw)) ∧
    safe_float .pynone = 0 ∧
    safe_float (.str none) = 0 ∧
    safe_float (.num 0) = 0 := by
  refine ⟨?_, rfl, rfl, rfl⟩
  unfold get_balances
  rw [← List.foldl_flatten]
  exact Prod.ext (foldl_balStep_fst _ _) (foldl_balStep_snd _ _)

end SolBot
